import Mathlib

/-!
Verification of the OpenHAB voice-assistant command dispatcher
(`assistant_OH.py`).

The Python program receives recognized utterances, gates them on an
activation hotword, matches keyword spans, and issues REST calls to an
OpenHAB backend.  We embed the recognized-text processing pipeline
(`MyAssistant._process_event`, `openhab_send`, `openhab_get_state`,
`any_idx`, the button callback) shallowly: the network and audio
collaborators are represented by an explicit effect trace, the GET
backend by an oracle function `fetch : String → String`, and Python
runtime errors (IndexError from list indexing, ValueError from `int()`)
by the `Except` error branch.

String operations are modelled over `List Char` with structural
recursion so that every definition evaluates inside the kernel; each
mirrors the corresponding Python `str` operation (`in`, `startswith`,
`lower`, `split(',')`, `strip`, `int()`).
-/

/-- Substring containment over char lists: Python's `needle in hay`. -/
def containsSub : List Char → List Char → Bool
  | needle, [] => needle.isEmpty
  | needle, c :: t => needle.isPrefixOf (c :: t) || containsSub needle t

/-- Python `needle in hay` for strings (substring containment). -/
def pyIn (needle hay : String) : Bool :=
  containsSub needle.toList hay.toList

/-- Python `s.startswith(pre)`. -/
def py_startswith (s pre : String) : Bool :=
  pre.toList.isPrefixOf s.toList

/-- ASCII lower-casing of one character, as Python `str.lower` acts on
the ASCII range used by this program. -/
def pyCharLower (c : Char) : Char :=
  if 65 ≤ c.toNat && c.toNat ≤ 90 then Char.ofNat (c.toNat + 32) else c

/-- Python `s.lower()`. -/
def py_lower (s : String) : String :=
  ⟨s.toList.map pyCharLower⟩

/-- Split a char list at every comma; Python `s.split(',')` semantics
(empty string yields one empty field, separators are not dropped). -/
def splitComma : List Char → List (List Char)
  | [] => [[]]
  | c :: t =>
    let r := splitComma t
    if c = ',' then [] :: r
    else
      match r with
      | [] => [[c]]
      | h :: rest => (c :: h) :: rest

/-- Python `s.split(',')` for strings. -/
def py_split_comma (s : String) : List String :=
  (splitComma s.toList).map (fun cs => ⟨cs⟩)

/-- Codepoints stripped as whitespace by Python 3 `int()` before
parsing (the `Py_UNICODE_ISSPACE` set used by the numeric parser). -/
def pyWhitespace : List Nat :=
  [0x9, 0xa, 0xb, 0xc, 0xd, 0x20, 0x85, 0xa0, 0x1680,
   0x2000, 0x2001, 0x2002, 0x2003, 0x2004, 0x2005, 0x2006, 0x2007,
   0x2008, 0x2009, 0x200a, 0x2028, 0x2029, 0x202f, 0x205f, 0x3000]

/-- Whitespace character test of Python `int()`. -/
def isPySpace (c : Char) : Bool :=
  pyWhitespace.contains c.toNat

/-- Strip leading and trailing whitespace, as Python `int()` does. -/
def pyStrip (cs : List Char) : List Char :=
  ((cs.dropWhile isPySpace).reverse.dropWhile isPySpace).reverse

/-- First codepoints (digit value 0) of every decade of Unicode decimal
digits accepted by Python 3 `int()` (Numeric_Type=Decimal). -/
def pyDigitStarts : List Nat :=
  [0x30, 0x660, 0x6f0, 0x7c0, 0x966, 0x9e6, 0xa66, 0xae6, 0xb66, 0xbe6,
   0xc66, 0xce6, 0xd66, 0xde6, 0xe50, 0xed0, 0xf20, 0x1040, 0x1090,
   0x17e0, 0x1810, 0x1946, 0x19d0, 0x1a80, 0x1a90, 0x1b50, 0x1bb0,
   0x1c40, 0x1c50, 0xa620, 0xa8d0, 0xa900, 0xa9d0, 0xa9f0, 0xaa50,
   0xabf0, 0xff10, 0x104a0, 0x10d30, 0x11066, 0x110f0, 0x11136,
   0x111d0, 0x112f0, 0x11450, 0x114d0, 0x11650, 0x116c0, 0x11730,
   0x118e0, 0x11950, 0x11c50, 0x11d50, 0x11da0, 0x16a60, 0x16ac0,
   0x16b50, 0x1d7ce, 0x1d7d8, 0x1d7e2, 0x1d7ec, 0x1d7f6, 0x1e140,
   0x1e2f0, 0x1e950, 0x1fbf0]

/-- Decimal value of a character under Python 3 `int()` (any Unicode
decimal digit, e.g. `int('٥') == 5`); `none` for non-digits. -/
def pyDecimalVal (c : Char) : Option Nat :=
  pyDigitStarts.findSome? fun s =>
    if s ≤ c.toNat && c.toNat ≤ s + 9 then some (c.toNat - s) else none

/-- Continue a digit run as Python 3 `int()` does: further digits, with
single underscores allowed only between two digits. -/
def pyDigitsCore : Nat → List Char → Option Nat
  | acc, [] => some acc
  | acc, '_' :: c :: rest =>
    match pyDecimalVal c with
    | some d => pyDigitsCore (acc * 10 + d) rest
    | none => none
  | acc, c :: rest =>
    match pyDecimalVal c with
    | some d => pyDigitsCore (acc * 10 + d) rest
    | none => none

/-- Parse a non-empty underscore-grouped digit run, which must begin
with a digit (not an underscore). -/
def pyParseDigits : List Char → Option Nat
  | [] => none
  | c :: rest =>
    match pyDecimalVal c with
    | some d => pyDigitsCore d rest
    | none => none

/-- Parse a stripped char list as Python 3 `int()` does: an optional
single sign followed by a non-empty underscore-grouped run of Unicode
decimal digits. -/
def pyIntCore : List Char → Option Int
  | '-' :: rest => (pyParseDigits rest).map (fun n => -(n : Int))
  | '+' :: rest => (pyParseDigits rest).map (fun n => (n : Int))
  | cs => (pyParseDigits cs).map (fun n => (n : Int))

/-- Python `int(s)`: `none` models the ValueError branch. -/
def pyInt (s : String) : Option Int :=
  pyIntCore (pyStrip s.toList)

/-- First whitespace-separated token of a string (used to state the
first-token reading of the hotword gate). -/
def firstToken (s : String) : Option String :=
  ((s.toList.dropWhile (fun c => c = ' ')).takeWhile (fun c => c ≠ ' ')) |>
    (fun cs => if cs.isEmpty then none else some ⟨cs⟩)

-- ---- CONFIGURATION (from the script header) ----

/-- Group containing all the lights (`all_lights_group`). -/
def all_lights_group : String := "Lights_ALL"

/-- Color channel of the single configured light. -/
def office_color : String := "hue_0210_00178828e0d0_1_color"

/-- Color-temperature channel of the single configured light. -/
def office_color_temp : String := "hue_0210_00178828e0d0_1_color_temperature"

/-- Items related to the light bulbs (`light_colors`). -/
def light_colors : List String := [office_color]

/-- Color-temperature items (`light_color_temps`). -/
def light_color_temps : List String := [office_color_temp]

/-- Device names recognized in spoken commands (`lights_ids`). -/
def lights_ids : List String := ["office"]

/-- Hotword that triggers the OpenHAB actions (`custom_hotword`). -/
def custom_hotword : String := "home"

-- ---- Effects and helpers ----

/-- Observable actions of the pipeline: network calls (`get` models
`openhab_get_state`, `post` the single POST inside `openhab_send`,
`send` an invocation of `openhab_send`), speech output, conversation
control, and OS power management. -/
inductive Effect where
  | get (item : String)
  | post (item : String) (state : String)
  | send (item : String) (state : String)
  | say (msg : String)
  | stopConv
  | startConv
  | shutdown
  | rebootSys
deriving DecidableEq

/-- Network calls among the effects (GET fetches and command pushes). -/
def isNetworkCall : Effect → Bool
  | .get _ => true
  | .post _ _ => true
  | .send _ _ => true
  | _ => false

/-- Effect list of a pipeline run, empty when the run raised. -/
def effectsOf : Except String (List Effect) → List Effect
  | .ok es => es
  | .error _ => []

/-- The run raised a Python exception. -/
def isErr : Except String (List Effect) → Bool
  | .error _ => true
  | .ok _ => false

/-- Helper `any_idx` of the script: index of the first `True` in the
iterable, `None` when there is none. -/
def any_idx : List Bool → Option Nat
  | [] => none
  | b :: rest => if b then some 0 else (any_idx rest).map (· + 1)

/-- Python list indexing `l[n]`; the error branch is IndexError. -/
def listGet (l : List String) (n : Nat) : Except String String :=
  match l.get? n with
  | some a => .ok a
  | none => .error "IndexError"

-- ---- openhab_send (lines 77-97) ----

/-- Spoken message chosen by `openhab_send` from the HTTP status code of
its single POST. -/
def send_message (code : Nat) : String :=
  if code = 200 then "OK"
  else if code = 400 then "There has been an error: bad command"
  else if code = 404 then "There has been an error: unknown item"
  else "Command failed"

/-- Model of `openhab_send item state` given the status code the
backend answers with: exactly one POST, then one spoken report. -/
def openhab_send (item state : String) (code : Nat) : List Effect :=
  [Effect.post item state, Effect.say (send_message code)]

-- ---- Spoken messages of the helper commands ----

def not_recognized_msg : String := "Sorry, I cannot do that yet"

def device_not_found_msg : String := "Sorry, I don\x27t know that device"

def power_off_msg : String := "Powering off the system. Good bye!"

def reboot_msg : String := "Rebooting the system. Hold on!"

-- ---- The recognized-text pipeline (lines 186-297) ----

/-- Verb set of the direct-state group:
`any(token in text for token in (' turn ', ' power ', ' set ', ' change '))`. -/
def hasDirectVerb (text : String) : Bool :=
  pyIn " turn " text || pyIn " power " text || pyIn " set " text || pyIn " change " text

/-- Verb set of the increase group (`' increase '`, `' raise '`). -/
def hasIncreaseVerb (text : String) : Bool :=
  pyIn " increase " text || pyIn " raise " text

/-- Verb set of the decrease group (`' decrease '`, `' reduce '`). -/
def hasDecreaseVerb (text : String) : Bool :=
  pyIn " decrease " text || pyIn " reduce " text

/-- Verb set of the reboot group (`' reboot '`, `' restart '`). -/
def hasRebootVerb (text : String) : Bool :=
  pyIn " reboot " text || pyIn " restart " text

/-- Hue pushed for the first matching color word of the elif chain
(red 0, yellow 100, blue 260, pink 340, green 140); `none` when no
color word is present. -/
def color_hue (text : String) : Option String :=
  if pyIn " red " text then some "0"
  else if pyIn " yellow " text then some "100"
  else if pyIn " blue " text then some "260"
  else if pyIn " pink " text then some "340"
  else if pyIn " green " text then some "140"
  else none

/-- Level pushed for the first matching temperature word of the elif
chain (cool 0, warm 100, natural 50). -/
def temp_level (text : String) : Option String :=
  if pyIn " cool " text then some "0"
  else if pyIn " warm " text then some "100"
  else if pyIn " natural " text then some "50"
  else none

/-- Single-light elif chain (lines 217-243), after the state of the
color channel has been fetched and comma-split into `current_state`. -/
def single_light_action (text direct_to_color direct_to_color_temp : String)
    (current_state : List String) : Except String (List Effect) :=
  if pyIn " on " text then .ok [Effect.send direct_to_color "ON"]
  else if pyIn " off " text then .ok [Effect.send direct_to_color "OFF"]
  else
    match color_hue text with
    | some hue =>
      match listGet current_state 2 with
      | .ok b => .ok [Effect.send direct_to_color (hue ++ ",100," ++ b)]
      | .error e => .error e
    | none =>
      match temp_level text with
      | some lvl => .ok [Effect.send direct_to_color_temp lvl]
      | none => .ok [Effect.say not_recognized_msg]

/-- Increase branch (lines 255-271): requires `' brightness '` and the
bare substring `'light'`, resolves the device, fetches and splits the
state, adds 25 to the integer brightness, caps at 100, recombines. -/
def increase_branch (fetch : String → String) (text : String) :
    Except String (List Effect) :=
  if pyIn " brightness " text && pyIn "light" text then
    match any_idx (lights_ids.map (fun token => pyIn token text)) with
    | some idx =>
      match listGet light_colors idx with
      | .ok direct_to_color =>
        let current_state := py_split_comma (fetch direct_to_color)
        match listGet current_state 2 with
        | .ok f2 =>
          match pyInt f2 with
          | some b =>
            let new_brightness : Int := b + 25
            let new_brightness : Int := if new_brightness > 100 then 100 else new_brightness
            match listGet current_state 0, listGet current_state 1 with
            | .ok f0, .ok f1 =>
              .ok [Effect.get direct_to_color,
                   Effect.send direct_to_color
                     (f0 ++ "," ++ f1 ++ "," ++ toString new_brightness)]
            | .error e, _ => .error e
            | _, .error e => .error e
          | none => .error "ValueError"
        | .error e => .error e
      | .error e => .error e
    | none => .ok [Effect.say device_not_found_msg]
  else .ok [Effect.say not_recognized_msg]

/-- Decrease branch (lines 274-290): like the increase branch but
subtracts 25 and floors at 0. -/
def decrease_branch (fetch : String → String) (text : String) :
    Except String (List Effect) :=
  if pyIn " brightness " text && pyIn "light" text then
    match any_idx (lights_ids.map (fun token => pyIn token text)) with
    | some idx =>
      match listGet light_colors idx with
      | .ok direct_to_color =>
        let current_state := py_split_comma (fetch direct_to_color)
        match listGet current_state 2 with
        | .ok f2 =>
          match pyInt f2 with
          | some b =>
            let new_brightness : Int := b - 25
            let new_brightness : Int := if new_brightness < 0 then 0 else new_brightness
            match listGet current_state 0, listGet current_state 1 with
            | .ok f0, .ok f1 =>
              .ok [Effect.get direct_to_color,
                   Effect.send direct_to_color
                     (f0 ++ "," ++ f1 ++ "," ++ toString new_brightness)]
            | .error e, _ => .error e
            | _, .error e => .error e
          | none => .error "ValueError"
        | .error e => .error e
      | .error e => .error e
    | none => .ok [Effect.say device_not_found_msg]
  else .ok [Effect.say not_recognized_msg]

/-- Action dispatch on hotword-gated, space-padded text (lines
195-297).  `fetch` is the GET oracle (`openhab_get_state`). -/
def dispatch (fetch : String → String) (text : String) :
    Except String (List Effect) :=
  if hasDirectVerb text then
    if pyIn " all " text && pyIn " lights " text then
      if pyIn " on " text then .ok [Effect.send all_lights_group "ON"]
      else if pyIn " off " text then .ok [Effect.send all_lights_group "OFF"]
      else .ok [Effect.say not_recognized_msg]
    else if pyIn " light " text then
      match any_idx (lights_ids.map (fun token => pyIn token text)) with
      | some idx =>
        match listGet light_colors idx, listGet light_color_temps idx with
        | .ok direct_to_color, .ok direct_to_color_temp =>
          let current_state := py_split_comma (fetch direct_to_color)
          match single_light_action text direct_to_color direct_to_color_temp current_state with
          | .ok es => .ok (Effect.get direct_to_color :: es)
          | .error e => .error e
        | .error e, _ => .error e
        | _, .error e => .error e
      | none => .ok [Effect.say device_not_found_msg]
    else if pyIn " system " text then
      if pyIn " off " text then .ok [Effect.say power_off_msg, Effect.shutdown]
      else .ok []
    else .ok [Effect.say not_recognized_msg]
  else if hasIncreaseVerb text then increase_branch fetch text
  else if hasDecreaseVerb text then decrease_branch fetch text
  else if hasRebootVerb text then
    if pyIn " system " text then .ok [Effect.say reboot_msg, Effect.rebootSys]
    else .ok []
  else .ok [Effect.say not_recognized_msg]

/-- Hotword gate on already lowercased text (lines 191-193): when the
text starts with the hotword, stop the host conversation, pad the text
with a trailing space and dispatch; otherwise do nothing (the utterance
is left to the host assistant). -/
def process_lower (fetch : String → String) (text : String) :
    Except String (List Effect) :=
  if py_startswith text custom_hotword then
    match dispatch fetch (text ++ " ") with
    | .ok es => .ok (Effect.stopConv :: es)
    | .error e => .error e
  else .ok []

/-- Full recognized-text handler (lines 186-297): lowercase the
utterance, then apply the hotword gate. -/
def process_text (fetch : String → String) (raw : String) :
    Except String (List Effect) :=
  process_lower fetch (py_lower raw)

-- ---- Session state machine (lines 144-181, 299-312) ----

/-- Session-visible state of `MyAssistant`: the `_can_start_conversation`
flag and the status shown on the UI. -/
structure SessionState where
  canStart : Bool
  status : String
deriving DecidableEq

/-- State after `__init__`: conversations may not start yet. -/
def initial_session : SessionState := ⟨false, ""⟩

/-- Lifecycle events delivered by the assistant library. -/
inductive AEvent where
  | startFinished
  | turnStarted
  | endOfUtterance
  | recognized (text : String)
  | turnFinished
deriving DecidableEq

/-- State transitions of `_process_event` on lifecycle events. -/
def session_step (s : SessionState) (e : AEvent) : SessionState :=
  match e with
  | .startFinished => ⟨true, "ready"⟩
  | .turnStarted => ⟨false, "listening"⟩
  | .endOfUtterance => ⟨s.canStart, "thinking"⟩
  | .recognized _ => s
  | .turnFinished => ⟨true, "ready"⟩

/-- Button callback `_on_button_pressed`: starts a conversation only
when `_can_start_conversation` holds, otherwise does nothing. -/
def on_button_pressed (s : SessionState) : SessionState × List Effect :=
  if s.canStart then (s, [Effect.startConv]) else (s, [])

-- ---- Round-trip recombination (claim C9, from lines 260-267) ----

/-- Decode a wire value into exactly three comma-separated fields, pass
the brightness field through `int()` with delta 0, and re-encode by
joining with commas, as the adjust branches recombine state. -/
def roundtrip (s : String) : Option String :=
  match py_split_comma s with
  | [f0, f1, f2] =>
    (pyInt f2).map (fun b => f0 ++ "," ++ f1 ++ "," ++ toString (b + 0))
  | _ => none

-- ---- Theorems ----

/-- C1 (counterexample): a lowercased utterance whose first token is
"homework" — not the activation keyword — is still dispatched by the
pipeline (the conversation is stopped and the command parsed and
executed), because the code tests `startswith`, not the first token. -/
theorem c1_counterexample :
    firstToken "homework turn on the office light" ≠ some custom_hotword ∧
    process_text (fun _ => "1,2,3") "homework turn on the office light" =
      .ok [Effect.stopConv, Effect.get office_color, Effect.send office_color "ON"] := by
  constructor
  · decide
  · rfl

/-- C1 (amended): the command-dispatch pipeline runs if and only if the
lowercased text starts with the activation keyword as a string prefix
(the keyword need not be a standalone first token); every utterance
whose lowercased text does not start with the keyword is passed through
with no effects at all. -/
theorem c1_hotword_prefix_gate (fetch : String → String) (raw : String) :
    (py_startswith (py_lower raw) custom_hotword = false →
      process_text fetch raw = .ok []) ∧
    (py_startswith (py_lower raw) custom_hotword = true →
      (∃ es, process_text fetch raw = .ok (Effect.stopConv :: es)) ∨
        isErr (process_text fetch raw) = true) := by
  unfold process_text process_lower
  constructor
  · intro h
    simp [h]
  · intro h
    simp only [h, if_true]
    cases dispatch fetch (py_lower raw ++ " ") with
    | ok es => exact Or.inl ⟨es, rfl⟩
    | error e => exact Or.inr rfl

/-- C1 witness: the gate theorem applied to a pass-through utterance
and to a dispatched one. -/
theorem c1_hotword_prefix_gate_witness :
    process_text (fun _ => "1,2,3") "what time is it" = .ok [] ∧
    ((∃ es, process_text (fun _ => "1,2,3") "home test" = .ok (Effect.stopConv :: es)) ∨
      isErr (process_text (fun _ => "1,2,3") "home test") = true) := by
  constructor
  · exact (c1_hotword_prefix_gate (fun _ => "1,2,3") "what time is it").1 (by decide)
  · exact (c1_hotword_prefix_gate (fun _ => "1,2,3") "home test").2 (by decide)

/-- C6 (confirmed): a push performs exactly one POST of the value, and
the spoken outcome is a pure function of the HTTP status code: 200 maps
to "OK", 400 and 404 to their own error messages, anything else to the
generic failure message; the four messages are pairwise distinct. -/
theorem c6_push_outcome_by_status (item state : String) (code : Nat) :
    openhab_send item state code =
      [Effect.post item state, Effect.say (send_message code)] ∧
    (openhab_send item state code).filter isNetworkCall = [Effect.post item state] ∧
    send_message 200 = "OK" ∧
    send_message 400 = "There has been an error: bad command" ∧
    send_message 404 = "There has been an error: unknown item" ∧
    (code ≠ 200 → code ≠ 400 → code ≠ 404 → send_message code = "Command failed") ∧
    List.Pairwise (· ≠ ·) ["OK", "There has been an error: bad command",
      "There has been an error: unknown item", "Command failed"] := by
  refine ⟨rfl, by simp [openhab_send, isNetworkCall], by decide, by decide, by decide, ?_, by decide⟩
  intro h200 h400 h404
  simp [send_message, h200, h400, h404]

/-- C6 witness: the status-code theorem applied at a concrete failing
code. -/
theorem c6_push_outcome_by_status_witness :
    send_message 500 = "Command failed" :=
  ((c6_push_outcome_by_status "it" "st" 500).2.2.2.2.2.1
    (by decide) (by decide) (by decide))

/-- C8 (confirmed): `canStartConversation` is false initially, becomes
false on turn-start and stays false through end-of-utterance and
recognized-text events until turn-finished; in any state where it is
false a button press changes no state and starts no conversation. -/
theorem c8_button_press_noop :
    initial_session.canStart = false ∧
    (∀ s : SessionState, (session_step s .turnStarted).canStart = false) ∧
    (∀ s : SessionState, s.canStart = false →
      (session_step s .endOfUtterance).canStart = false) ∧
    (∀ (s : SessionState) (t : String), s.canStart = false →
      (session_step s (.recognized t)).canStart = false) ∧
    (∀ s : SessionState, s.canStart = false → on_button_pressed s = (s, [])) := by
  refine ⟨rfl, fun s => rfl, fun s h => by simp [session_step, h], fun s t h => h, ?_⟩
  intro s h
  simp [on_button_pressed, h]

/-- C8 witness: a button press in the listening state is a no-op. -/
theorem c8_button_press_noop_witness :
    on_button_pressed ⟨false, "listening"⟩ = (⟨false, "listening"⟩, []) :=
  c8_button_press_noop.2.2.2.2 ⟨false, "listening"⟩ rfl

/-- C2 (counterexample): on "home turn the office light cool" the code
performs two network calls — a GET of the color-channel state before
the push — not exactly one push with no prior fetch. -/
theorem c2_counterexample :
    process_lower (fun _ => "1,2,3") "home turn the office light cool" =
      .ok [Effect.stopConv, Effect.get office_color,
           Effect.send office_color_temp "0"] ∧
    (effectsOf (process_lower (fun _ => "1,2,3")
        "home turn the office light cool")).filter isNetworkCall ≠
      [Effect.send office_color_temp "0"] := by
  constructor
  · rfl
  · decide

/-- C2 (amended): for every single-light color-temperature command with
a resolved target device, the executor performs exactly two network
calls: first a GET of the device's color-channel state, whose result is
unused, then one push of the literal level to the color-temperature
channel; the levels are the literals "0" for cool, "100" for warm and
"50" for natural. -/
theorem c2_color_temp_push (fetch : String → String) (t lvl : String)
    (hhot : py_startswith t custom_hotword = true)
    (hdv : hasDirectVerb (t ++ " ") = true)
    (hall : (pyIn " all " (t ++ " ") && pyIn " lights " (t ++ " ")) = false)
    (hlight : pyIn " light " (t ++ " ") = true)
    (hdev : pyIn "office" (t ++ " ") = true)
    (hon : pyIn " on " (t ++ " ") = false)
    (hoff : pyIn " off " (t ++ " ") = false)
    (hcol : color_hue (t ++ " ") = none)
    (hlvl : temp_level (t ++ " ") = some lvl) :
    process_lower fetch t =
      .ok [Effect.stopConv, Effect.get office_color,
           Effect.send office_color_temp lvl] ∧
    ((effectsOf (process_lower fetch t)).filter isNetworkCall).length = 2 ∧
    (pyIn " cool " (t ++ " ") = true → lvl = "0") ∧
    (pyIn " cool " (t ++ " ") = false → pyIn " warm " (t ++ " ") = true → lvl = "100") ∧
    (pyIn " cool " (t ++ " ") = false → pyIn " warm " (t ++ " ") = false →
      pyIn " natural " (t ++ " ") = true → lvl = "50") := by
  have hmain : process_lower fetch t =
      .ok [Effect.stopConv, Effect.get office_color,
           Effect.send office_color_temp lvl] := by
    unfold process_lower dispatch single_light_action
    simp [hhot, hdv, hall, hlight, hdev, hon, hoff, hcol, hlvl,
      lights_ids, light_colors, light_color_temps, any_idx, listGet]
  refine ⟨hmain, ?_, ?_, ?_, ?_⟩
  · rw [hmain]
    rfl
  · intro hc
    have := hlvl
    rw [temp_level, hc] at this
    simpa using this.symm
  · intro hc hw
    have := hlvl
    rw [temp_level, hc, hw] at this
    simpa using this.symm
  · intro hc hw hn
    have := hlvl
    rw [temp_level, hc, hw, hn] at this
    simpa using this.symm

/-- C2 witness: the amended theorem applied at the cool command. -/
theorem c2_color_temp_push_witness :
    process_lower (fun _ => "1,2,3") "home turn the office light cool" =
      .ok [Effect.stopConv, Effect.get office_color,
           Effect.send office_color_temp "0"] :=
  (c2_color_temp_push (fun _ => "1,2,3") "home turn the office light cool" "0"
    (by decide) (by decide) (by decide) (by decide) (by decide) (by decide)
    (by decide) (by decide) (by decide)).1

/-- Capping at 100 agrees with clamping to [0,100] for brightness read
from a valid state (b nonnegative). -/
theorem cap_up_eq_clamp (b : Int) (h0 : 0 ≤ b) :
    (if b + 25 > 100 then (100 : Int) else b + 25) = max 0 (min 100 (b + 25)) := by
  split <;> omega

/-- Flooring at 0 agrees with clamping to [0,100] for brightness read
from a valid state (b at most 100). -/
theorem floor_down_eq_clamp (b : Int) (h1 : b ≤ 100) :
    (if b - 25 < 0 then (0 : Int) else b - 25) = max 0 (min 100 (b - 25)) := by
  split <;> omega

/-- C3 (confirmed): for a brightness-adjust command on the resolved
device whose fetched state has three fields with integer brightness b
in the valid range [0,100], the increase group pushes hue and
saturation unchanged with brightness (b+25) clamped to [0,100] and the
decrease group pushes (b-25) clamped to [0,100]; the single fetch
precedes the push. -/
theorem c3_adjust_brightness_clamped (fetch : String → String)
    (t f0 f1 f2 : String) (b : Int)
    (hhot : py_startswith t custom_hotword = true)
    (hdv : hasDirectVerb (t ++ " ") = false)
    (hbr : pyIn " brightness " (t ++ " ") = true)
    (hlt : pyIn "light" (t ++ " ") = true)
    (hdev : pyIn "office" (t ++ " ") = true)
    (hst : py_split_comma (fetch office_color) = [f0, f1, f2])
    (hb : pyInt f2 = some b) (hb0 : 0 ≤ b) (hb1 : b ≤ 100) :
    (hasIncreaseVerb (t ++ " ") = true →
      process_lower fetch t =
        .ok [Effect.stopConv, Effect.get office_color,
             Effect.send office_color
               (f0 ++ "," ++ f1 ++ "," ++ toString (max 0 (min 100 (b + 25))))]) ∧
    (hasIncreaseVerb (t ++ " ") = false → hasDecreaseVerb (t ++ " ") = true →
      process_lower fetch t =
        .ok [Effect.stopConv, Effect.get office_color,
             Effect.send office_color
               (f0 ++ "," ++ f1 ++ "," ++ toString (max 0 (min 100 (b - 25))))]) := by
  constructor
  · intro hinc
    unfold process_lower dispatch increase_branch
    rw [← cap_up_eq_clamp b hb0]
    simp [hhot, hdv, hinc, hbr, hlt, hdev, hst, hb,
      lights_ids, light_colors, any_idx, listGet]
  · intro hninc hdec
    unfold process_lower dispatch decrease_branch
    rw [← floor_down_eq_clamp b hb1]
    simp [hhot, hdv, hninc, hdec, hbr, hlt, hdev, hst, hb,
      lights_ids, light_colors, any_idx, listGet]

/-- C3 witness: increase from brightness 90 pushes 100 (not 115), and
decrease from brightness 10 pushes 0 (not -15), hue and saturation
copied unchanged. -/
theorem c3_adjust_brightness_clamped_witness :
    process_lower (fun _ => "12,34,90") "home increase the office light brightness" =
      .ok [Effect.stopConv, Effect.get office_color,
           Effect.send office_color
             ("12" ++ "," ++ "34" ++ "," ++ toString (max 0 (min 100 ((90 : Int) + 25))))] ∧
    process_lower (fun _ => "12,34,10") "home decrease the office light brightness" =
      .ok [Effect.stopConv, Effect.get office_color,
           Effect.send office_color
             ("12" ++ "," ++ "34" ++ "," ++ toString (max 0 (min 100 ((10 : Int) - 25))))] := by
  constructor
  · exact (c3_adjust_brightness_clamped (fun _ => "12,34,90")
      "home increase the office light brightness" "12" "34" "90" 90
      (by decide) (by decide) (by decide) (by decide) (by decide) (by decide)
      (by decide) (by decide) (by decide)).1 (by decide)
  · exact (c3_adjust_brightness_clamped (fun _ => "12,34,10")
      "home decrease the office light brightness" "12" "34" "10" 10
      (by decide) (by decide) (by decide) (by decide) (by decide) (by decide)
      (by decide) (by decide) (by decide)).2 (by decide) (by decide)

/-- C4 (confirmed): for a single-light direct-state color command with
a resolved device, the value pushed to the color channel is the color's
fixed hue (red 0, yellow 100, blue 260, pink 340, green 140), then
saturation 100, then the third comma-separated field of the freshly
fetched state, unchanged; the first matching color of the chain wins. -/
theorem c4_color_preserves_brightness (fetch : String → String)
    (t f2 : String)
    (hhot : py_startswith t custom_hotword = true)
    (hdv : hasDirectVerb (t ++ " ") = true)
    (hall : (pyIn " all " (t ++ " ") && pyIn " lights " (t ++ " ")) = false)
    (hlight : pyIn " light " (t ++ " ") = true)
    (hdev : pyIn "office" (t ++ " ") = true)
    (hon : pyIn " on " (t ++ " ") = false)
    (hoff : pyIn " off " (t ++ " ") = false)
    (hst : (py_split_comma (fetch office_color))[2]? = some f2) :
    (pyIn " red " (t ++ " ") = true →
      process_lower fetch t =
        .ok [Effect.stopConv, Effect.get office_color,
             Effect.send office_color ("0" ++ ",100," ++ f2)]) ∧
    (pyIn " red " (t ++ " ") = false → pyIn " yellow " (t ++ " ") = true →
      process_lower fetch t =
        .ok [Effect.stopConv, Effect.get office_color,
             Effect.send office_color ("100" ++ ",100," ++ f2)]) ∧
    (pyIn " red " (t ++ " ") = false → pyIn " yellow " (t ++ " ") = false →
      pyIn " blue " (t ++ " ") = true →
      process_lower fetch t =
        .ok [Effect.stopConv, Effect.get office_color,
             Effect.send office_color ("260" ++ ",100," ++ f2)]) ∧
    (pyIn " red " (t ++ " ") = false → pyIn " yellow " (t ++ " ") = false →
      pyIn " blue " (t ++ " ") = false → pyIn " pink " (t ++ " ") = true →
      process_lower fetch t =
        .ok [Effect.stopConv, Effect.get office_color,
             Effect.send office_color ("340" ++ ",100," ++ f2)]) ∧
    (pyIn " red " (t ++ " ") = false → pyIn " yellow " (t ++ " ") = false →
      pyIn " blue " (t ++ " ") = false → pyIn " pink " (t ++ " ") = false →
      pyIn " green " (t ++ " ") = true →
      process_lower fetch t =
        .ok [Effect.stopConv, Effect.get office_color,
             Effect.send office_color ("140" ++ ",100," ++ f2)]) := by
  refine ⟨?_, ?_, ?_, ?_, ?_⟩
  · intro hr
    unfold process_lower dispatch single_light_action
    simp [hhot, hdv, hall, hlight, hdev, hon, hoff, color_hue, hr,
      lights_ids, light_colors, light_color_temps, any_idx, listGet, hst]
  · intro hr hy
    unfold process_lower dispatch single_light_action
    simp [hhot, hdv, hall, hlight, hdev, hon, hoff, color_hue, hr, hy,
      lights_ids, light_colors, light_color_temps, any_idx, listGet, hst]
  · intro hr hy hbl
    unfold process_lower dispatch single_light_action
    simp [hhot, hdv, hall, hlight, hdev, hon, hoff, color_hue, hr, hy, hbl,
      lights_ids, light_colors, light_color_temps, any_idx, listGet, hst]
  · intro hr hy hbl hp
    unfold process_lower dispatch single_light_action
    simp [hhot, hdv, hall, hlight, hdev, hon, hoff, color_hue, hr, hy, hbl, hp,
      lights_ids, light_colors, light_color_temps, any_idx, listGet, hst]
  · intro hr hy hbl hp hg
    unfold process_lower dispatch single_light_action
    simp [hhot, hdv, hall, hlight, hdev, hon, hoff, color_hue, hr, hy, hbl, hp, hg,
      lights_ids, light_colors, light_color_temps, any_idx, listGet, hst]

/-- C4 witness: turning the office light red with fetched state
"1,2,3" pushes "0,100,3". -/
theorem c4_color_preserves_brightness_witness :
    process_lower (fun _ => "1,2,3") "home turn the office light red" =
      .ok [Effect.stopConv, Effect.get office_color,
           Effect.send office_color ("0" ++ ",100," ++ "3")] :=
  (c4_color_preserves_brightness (fun _ => "1,2,3")
    "home turn the office light red" "3"
    (by decide) (by decide) (by decide) (by decide) (by decide) (by decide)
    (by decide) (by decide)).1 (by decide)

/-- C5 (counterexample): "home turn the office light purple" yields the
ActionNotRecognized report, yet one network call (the state fetch of
the resolved device) has already been made before the report. -/
theorem c5_counterexample :
    process_lower (fun _ => "1,2,3") "home turn the office light purple" =
      .ok [Effect.stopConv, Effect.get office_color,
           Effect.say not_recognized_msg] ∧
    (effectsOf (process_lower (fun _ => "1,2,3")
        "home turn the office light purple")).filter isNetworkCall ≠ [] := by
  constructor
  · rfl
  · decide

/-- C5 (amended): a single-light command (direct-state or
brightness-adjust) naming no configured device reports DeviceNotFound
with zero network calls; an ActionNotRecognized report is reached with
zero network calls from every path that emits one — no matching verb
group, the all-lights branch without on/off, a direct verb with no
all-lights/light/system scope, and the increase and decrease groups
failing their brightness-and-light guard — except the resolved
single-light branch, where exactly one state fetch precedes the
report. -/
theorem c5_local_errors_no_network (fetch : String → String) (t : String)
    (hhot : py_startswith t custom_hotword = true) :
    (hasDirectVerb (t ++ " ") = true →
      (pyIn " all " (t ++ " ") && pyIn " lights " (t ++ " ")) = false →
      pyIn " light " (t ++ " ") = true → pyIn "office" (t ++ " ") = false →
      process_lower fetch t = .ok [Effect.stopConv, Effect.say device_not_found_msg]) ∧
    (hasDirectVerb (t ++ " ") = false → hasIncreaseVerb (t ++ " ") = true →
      pyIn " brightness " (t ++ " ") = true → pyIn "light" (t ++ " ") = true →
      pyIn "office" (t ++ " ") = false →
      process_lower fetch t = .ok [Effect.stopConv, Effect.say device_not_found_msg]) ∧
    (hasDirectVerb (t ++ " ") = false → hasIncreaseVerb (t ++ " ") = false →
      hasDecreaseVerb (t ++ " ") = true →
      pyIn " brightness " (t ++ " ") = true → pyIn "light" (t ++ " ") = true →
      pyIn "office" (t ++ " ") = false →
      process_lower fetch t = .ok [Effect.stopConv, Effect.say device_not_found_msg]) ∧
    (hasDirectVerb (t ++ " ") = true →
      (pyIn " all " (t ++ " ") && pyIn " lights " (t ++ " ")) = false →
      pyIn " light " (t ++ " ") = true → pyIn "office" (t ++ " ") = true →
      pyIn " on " (t ++ " ") = false → pyIn " off " (t ++ " ") = false →
      color_hue (t ++ " ") = none → temp_level (t ++ " ") = none →
      process_lower fetch t =
        .ok [Effect.stopConv, Effect.get office_color, Effect.say not_recognized_msg]) ∧
    (hasDirectVerb (t ++ " ") = false → hasIncreaseVerb (t ++ " ") = false →
      hasDecreaseVerb (t ++ " ") = false → hasRebootVerb (t ++ " ") = false →
      process_lower fetch t = .ok [Effect.stopConv, Effect.say not_recognized_msg]) ∧
    (hasDirectVerb (t ++ " ") = false → hasIncreaseVerb (t ++ " ") = true →
      (pyIn " brightness " (t ++ " ") && pyIn "light" (t ++ " ")) = false →
      process_lower fetch t = .ok [Effect.stopConv, Effect.say not_recognized_msg]) ∧
    (hasDirectVerb (t ++ " ") = true →
      (pyIn " all " (t ++ " ") && pyIn " lights " (t ++ " ")) = true →
      pyIn " on " (t ++ " ") = false → pyIn " off " (t ++ " ") = false →
      process_lower fetch t = .ok [Effect.stopConv, Effect.say not_recognized_msg]) ∧
    (hasDirectVerb (t ++ " ") = true →
      (pyIn " all " (t ++ " ") && pyIn " lights " (t ++ " ")) = false →
      pyIn " light " (t ++ " ") = false → pyIn " system " (t ++ " ") = false →
      process_lower fetch t = .ok [Effect.stopConv, Effect.say not_recognized_msg]) ∧
    (hasDirectVerb (t ++ " ") = false → hasIncreaseVerb (t ++ " ") = false →
      hasDecreaseVerb (t ++ " ") = true →
      (pyIn " brightness " (t ++ " ") && pyIn "light" (t ++ " ")) = false →
      process_lower fetch t = .ok [Effect.stopConv, Effect.say not_recognized_msg]) := by
  refine ⟨?_, ?_, ?_, ?_, ?_, ?_, ?_, ?_, ?_⟩
  · intro hdv hall hlight hdev
    unfold process_lower dispatch
    simp [hhot, hdv, hall, hlight, hdev, lights_ids, any_idx]
  · intro hdv hinc hbr hlt hdev
    unfold process_lower dispatch increase_branch
    simp [hhot, hdv, hinc, hbr, hlt, hdev, lights_ids, any_idx]
  · intro hdv hinc hdec hbr hlt hdev
    unfold process_lower dispatch decrease_branch
    simp [hhot, hdv, hinc, hdec, hbr, hlt, hdev, lights_ids, any_idx]
  · intro hdv hall hlight hdev hon hoff hcol hlvl
    unfold process_lower dispatch single_light_action
    simp [hhot, hdv, hall, hlight, hdev, hon, hoff, hcol, hlvl,
      lights_ids, light_colors, light_color_temps, any_idx, listGet]
  · intro hdv hinc hdec hreb
    unfold process_lower dispatch
    simp [hhot, hdv, hinc, hdec, hreb]
  · intro hdv hinc hcond
    unfold process_lower dispatch increase_branch
    simp [hhot, hdv, hinc, hcond]
  · intro hdv hall hon hoff
    unfold process_lower dispatch
    simp [hhot, hdv, hall, hon, hoff]
  · intro hdv hall hlight hsys
    unfold process_lower dispatch
    simp [hhot, hdv, hall, hlight, hsys]
  · intro hdv hinc hdec hcond
    unfold process_lower dispatch decrease_branch
    simp [hhot, hdv, hinc, hdec, hcond]

/-- C5 witness: the amended theorem applied to an unknown-device
command (zero network calls) and to a resolved-device unrecognized
action (one fetch). -/
theorem c5_local_errors_no_network_witness :
    process_lower (fun _ => "1,2,3") "home turn off the kitchen light" =
      .ok [Effect.stopConv, Effect.say device_not_found_msg] ∧
    process_lower (fun _ => "1,2,3") "home turn the office light purple " =
      .ok [Effect.stopConv, Effect.get office_color, Effect.say not_recognized_msg] := by
  constructor
  · exact (c5_local_errors_no_network (fun _ => "1,2,3")
      "home turn off the kitchen light" (by decide)).1
      (by decide) (by decide) (by decide) (by decide)
  · exact (c5_local_errors_no_network (fun _ => "1,2,3")
      "home turn the office light purple " (by decide)).2.2.2.1
      (by decide) (by decide) (by decide) (by decide) (by decide) (by decide)
      (by decide) (by decide)

/-- C7 (counterexample): in "home increase the office daylights
brightness" the word "light" occurs only inside "daylights" (the
padded token " light " is absent), yet the command is dispatched and
pushes a brightness update instead of reporting ActionNotRecognized. -/
theorem c7_counterexample :
    pyIn " light " ("home increase the office daylights brightness" ++ " ") = false ∧
    pyIn "light" ("home increase the office daylights brightness" ++ " ") = true ∧
    process_lower (fun _ => "10,20,30") "home increase the office daylights brightness" =
      .ok [Effect.stopConv, Effect.get office_color,
           Effect.send office_color "10,20,55"] ∧
    Effect.say not_recognized_msg ∉
      effectsOf (process_lower (fun _ => "10,20,30")
        "home increase the office daylights brightness") := by
  refine ⟨by decide, by decide, rfl, by decide⟩

/-- C7 (amended): the light-scope requirement of the increase/decrease
groups is the bare substring "light", not the space-padded token: an
utterance in which "light" occurs only inside a longer word still
satisfies the requirement and is processed, and the requirement fails
(yielding ActionNotRecognized) only when even the bare substring is
absent. -/
theorem c7_bare_light_scope (fetch : String → String)
    (t f0 f1 f2 : String) (b : Int)
    (hhot : py_startswith t custom_hotword = true)
    (hdv : hasDirectVerb (t ++ " ") = false)
    (hinc : hasIncreaseVerb (t ++ " ") = true) :
    (pyIn " brightness " (t ++ " ") = true → pyIn "light" (t ++ " ") = true →
      pyIn " light " (t ++ " ") = false → pyIn "office" (t ++ " ") = true →
      py_split_comma (fetch office_color) = [f0, f1, f2] → pyInt f2 = some b →
      process_lower fetch t =
        .ok [Effect.stopConv, Effect.get office_color,
             Effect.send office_color
               (f0 ++ "," ++ f1 ++ "," ++
                 toString (if b + 25 > 100 then (100 : Int) else b + 25))]) ∧
    (pyIn "light" (t ++ " ") = false →
      process_lower fetch t = .ok [Effect.stopConv, Effect.say not_recognized_msg]) := by
  constructor
  · intro hbr hlt _hpad hdev hst hb
    unfold process_lower dispatch increase_branch
    simp [hhot, hdv, hinc, hbr, hlt, hdev, hst, hb,
      lights_ids, light_colors, any_idx, listGet]
  · intro hlt
    unfold process_lower dispatch increase_branch
    simp [hhot, hdv, hinc, hlt]

/-- C7 witness: the amended theorem applied at the "daylights"
utterance, which is processed to a push of brightness 55. -/
theorem c7_bare_light_scope_witness :
    process_lower (fun _ => "10,20,30") "home increase the office daylights brightness" =
      .ok [Effect.stopConv, Effect.get office_color,
           Effect.send office_color
             ("10" ++ "," ++ "20" ++ "," ++
               toString (if (30 : Int) + 25 > 100 then (100 : Int) else 30 + 25))] :=
  (c7_bare_light_scope (fun _ => "10,20,30")
    "home increase the office daylights brightness" "10" "20" "30" 30
    (by decide) (by decide) (by decide)).1
    (by decide) (by decide) (by decide) (by decide) (by decide) (by decide)

/-- C9 (counterexample): the three-field wire value "0,0,05" does not
survive the decode–recombine–encode round trip: the brightness field
"05" is re-printed canonically as "5". -/
theorem c9_counterexample :
    roundtrip "0,0,05" = some "0,0,5" ∧ roundtrip "0,0,05" ≠ some "0,0,05" := by
  constructor
  · rfl
  · decide

/-- Parsing the canonical decimal numeral of a brightness value in
[0,100] recovers the value. -/
theorem pyInt_toString_le (b : Nat) (hb : b ≤ 100) :
    pyInt (toString b) = some (b : Int) := by
  have h : ∀ x : Fin 101, pyInt (toString (x : Nat)) = some ((x : Nat) : Int) := by decide
  exact h ⟨b, Nat.lt_succ_of_le hb⟩

/-- Printing an integer obtained from a natural number gives the same
numeral as printing the natural number. -/
theorem int_ofNat_toString (b : Nat) : toString ((b : Nat) : Int) = toString b := rfl

/-- C9 (amended): a wire value of exactly three comma-separated fields
whose brightness field is the canonical decimal numeral of a value b in
[0,100] is reproduced exactly by the decode–recombine–encode round trip
with unchanged fields (delta 0); non-canonical brightness numerals such
as "05" are re-printed canonically instead. -/
theorem c9_roundtrip_canonical (s f0 f1 : String) (b : Nat)
    (heq : s = f0 ++ "," ++ f1 ++ "," ++ toString b)
    (hsplit : py_split_comma s = [f0, f1, toString b])
    (hb : b ≤ 100) :
    roundtrip s = some s := by
  unfold roundtrip
  rw [hsplit]
  simp only [pyInt_toString_le b hb, Option.map_some']
  rw [Int.add_zero, int_ofNat_toString, ← heq]

/-- C9 witness: the canonical three-field value "10,20,30" round-trips
to itself. -/
theorem c9_roundtrip_canonical_witness :
    roundtrip "10,20,30" = some "10,20,30" :=
  c9_roundtrip_canonical "10,20,30" "10" "20" 30 (by decide) (by decide) (by decide)

/-- C10 (confirmed): the handlers validate nothing about the fetched
state: with a resolved device, a color command raises exactly when the
comma-split fetch result has fewer than three fields, and a
brightness-adjust command of either the increase or the decrease group
raises exactly when the third field is missing or is not accepted by
Python `int()` (any underscore-grouped run of Unicode decimal digits
with optional sign and surrounding whitespace); on the fetch result
"NULL" all three handlers raise IndexError instead of producing an
outcome. -/
theorem c10_no_state_validation (fetch : String → String) (t hue : String)
    (hhot : py_startswith t custom_hotword = true) :
    (hasDirectVerb (t ++ " ") = true →
      (pyIn " all " (t ++ " ") && pyIn " lights " (t ++ " ")) = false →
      pyIn " light " (t ++ " ") = true → pyIn "office" (t ++ " ") = true →
      pyIn " on " (t ++ " ") = false → pyIn " off " (t ++ " ") = false →
      color_hue (t ++ " ") = some hue →
      (isErr (process_lower fetch t) = true ↔
        (py_split_comma (fetch office_color)).length < 3)) ∧
    (hasDirectVerb (t ++ " ") = false → hasIncreaseVerb (t ++ " ") = true →
      pyIn " brightness " (t ++ " ") = true → pyIn "light" (t ++ " ") = true →
      pyIn "office" (t ++ " ") = true →
      (isErr (process_lower fetch t) = true ↔
        ((py_split_comma (fetch office_color))[2]?).bind pyInt = none)) ∧
    (hasDirectVerb (t ++ " ") = false → hasIncreaseVerb (t ++ " ") = false →
      hasDecreaseVerb (t ++ " ") = true →
      pyIn " brightness " (t ++ " ") = true → pyIn "light" (t ++ " ") = true →
      pyIn "office" (t ++ " ") = true →
      (isErr (process_lower fetch t) = true ↔
        ((py_split_comma (fetch office_color))[2]?).bind pyInt = none)) ∧
    process_lower (fun _ => "NULL") "home turn the office light red" =
      .error "IndexError" ∧
    process_lower (fun _ => "NULL") "home increase the office light brightness" =
      .error "IndexError" ∧
    process_lower (fun _ => "NULL") "home decrease the office light brightness" =
      .error "IndexError" := by
  refine ⟨?_, ?_, ?_, rfl, rfl, rfl⟩
  · intro hdv hall hlight hdev hon hoff hcol
    unfold process_lower dispatch single_light_action
    cases h2 : (py_split_comma (fetch office_color))[2]? with
    | some f2 =>
      have hlen : 2 < (py_split_comma (fetch office_color)).length := by
        by_contra hc
        rw [List.getElem?_eq_none (by omega)] at h2
        exact Option.noConfusion h2
      simp [hhot, hdv, hall, hlight, hdev, hon, hoff, hcol, h2,
        lights_ids, light_colors, light_color_temps, any_idx, listGet, isErr]
      omega
    | none =>
      have hlen : (py_split_comma (fetch office_color)).length ≤ 2 :=
        List.getElem?_eq_none_iff.mp h2
      simp [hhot, hdv, hall, hlight, hdev, hon, hoff, hcol, h2,
        lights_ids, light_colors, light_color_temps, any_idx, listGet, isErr]
      omega
  · intro hdv hinc hbr hlt hdev
    unfold process_lower dispatch increase_branch
    cases h2 : (py_split_comma (fetch office_color))[2]? with
    | some f2 =>
      have hlen : 2 < (py_split_comma (fetch office_color)).length := by
        by_contra hc
        rw [List.getElem?_eq_none (by omega)] at h2
        exact Option.noConfusion h2
      have h0 : (py_split_comma (fetch office_color))[0]? =
          some ((py_split_comma (fetch office_color)).get ⟨0, by omega⟩) := by
        rw [List.getElem?_eq_getElem (by omega)]
        rfl
      have h1 : (py_split_comma (fetch office_color))[1]? =
          some ((py_split_comma (fetch office_color)).get ⟨1, by omega⟩) := by
        rw [List.getElem?_eq_getElem (by omega)]
        rfl
      cases hp : pyInt f2 with
      | some b =>
        simp [hhot, hdv, hinc, hbr, hlt, hdev, h2, hp, h0, h1,
          lights_ids, light_colors, any_idx, listGet, isErr]
      | none =>
        simp [hhot, hdv, hinc, hbr, hlt, hdev, h2, hp,
          lights_ids, light_colors, any_idx, listGet, isErr]
    | none =>
      simp [hhot, hdv, hinc, hbr, hlt, hdev, h2,
        lights_ids, light_colors, any_idx, listGet, isErr]
  · intro hdv hinc hdec hbr hlt hdev
    unfold process_lower dispatch decrease_branch
    cases h2 : (py_split_comma (fetch office_color))[2]? with
    | some f2 =>
      have hlen : 2 < (py_split_comma (fetch office_color)).length := by
        by_contra hc
        rw [List.getElem?_eq_none (by omega)] at h2
        exact Option.noConfusion h2
      have h0 : (py_split_comma (fetch office_color))[0]? =
          some ((py_split_comma (fetch office_color)).get ⟨0, by omega⟩) := by
        rw [List.getElem?_eq_getElem (by omega)]
        rfl
      have h1 : (py_split_comma (fetch office_color))[1]? =
          some ((py_split_comma (fetch office_color)).get ⟨1, by omega⟩) := by
        rw [List.getElem?_eq_getElem (by omega)]
        rfl
      cases hp : pyInt f2 with
      | some b =>
        simp [hhot, hdv, hinc, hdec, hbr, hlt, hdev, h2, hp, h0, h1,
          lights_ids, light_colors, any_idx, listGet, isErr]
      | none =>
        simp [hhot, hdv, hinc, hdec, hbr, hlt, hdev, h2, hp,
          lights_ids, light_colors, any_idx, listGet, isErr]
    | none =>
      simp [hhot, hdv, hinc, hdec, hbr, hlt, hdev, h2,
        lights_ids, light_colors, any_idx, listGet, isErr]

/-- C10 witness: with fetch result "NULL" and a red command the run
raises (the state has a single field), and with a well-formed state it
does not. -/
theorem c10_no_state_validation_witness :
    (isErr (process_lower (fun _ => "NULL") "home turn the office light red") = true ↔
      (py_split_comma ((fun _ : String => "NULL") office_color)).length < 3) ∧
    (isErr (process_lower (fun _ => "1,2,3") "home turn the office light red") = true ↔
      (py_split_comma ((fun _ : String => "1,2,3") office_color)).length < 3) := by
  constructor
  · exact (c10_no_state_validation (fun _ => "NULL")
      "home turn the office light red" "0" (by decide)).1
      (by decide) (by decide) (by decide) (by decide) (by decide) (by decide) (by decide)
  · exact (c10_no_state_validation (fun _ => "1,2,3")
      "home turn the office light red" "0" (by decide)).1
      (by decide) (by decide) (by decide) (by decide) (by decide) (by decide) (by decide)
